import Mathlib

/-!
Verification of the USB formatter utility (format_usb_gui.py).

The Python module is shallowly embedded: pure helpers become Lean
functions; functions that shell out to external tools are modelled as
functions of an explicit environment recording the outcome of each
external call, and they return the sequence of progress percentages
they emit together with their result.  A Python function that raises
an exception which escapes its own body is modelled with an explicit
raised constructor.
-/

namespace FormatUsb

/-- One node of the JSON tree printed by lsblk -J: fields NAME, TYPE,
MOUNTPOINT, and the optional children list.  SIZE, MODEL, KNAME, RM are
not inspected by the functions verified here and are omitted. -/
inductive LsblkNode : Type where
  | mk : String → String → Option String → List LsblkNode → LsblkNode

def LsblkNode.name : LsblkNode → String
  | .mk n _ _ _ => n

def LsblkNode.typ : LsblkNode → String
  | .mk _ t _ _ => t

def LsblkNode.mountpoint : LsblkNode → Option String
  | .mk _ _ mp _ => mp

def LsblkNode.children : LsblkNode → List LsblkNode
  | .mk _ _ _ cs => cs

/-- The parsed lsblk report: the value of the "blockdevices" key
(a missing key is read as the empty list by data.get). -/
structure LsblkReport : Type where
  blockdevices : List LsblkNode

/-- The nested walk function of get_block_devices: appends every node
whose type is "disk" and always recurses into children. -/
def walk : List LsblkNode → List LsblkNode
  | [] => []
  | LsblkNode.mk n t mp cs :: rest =>
      (if t = "disk" then [LsblkNode.mk n t mp cs] else []) ++ walk cs ++ walk rest
termination_by ns => sizeOf ns

/-- get_block_devices: lsblk is run and its JSON output parsed; the
environment argument is none when subprocess.check_output or json.loads
raises (the except branch) and some report on success. -/
def get_block_devices (parsed : Option LsblkReport) : List LsblkNode × Option String :=
  match parsed with
  | none => ([], some "Error running lsblk")
  | some data => (walk data.blockdevices, none)

/-- The names of the module globals of format_usb_gui.py: imported
module names, module-level constants, and every top-level def and
class statement, in source order.  Python resolves a bare name such as
find_first_partition against this table (and then builtins) at call
time; a miss raises NameError. -/
def module_globals : List String :=
  ["json", "shutil", "subprocess", "sys", "threading", "Path", "os", "re",
   "time", "hashlib", "urllib", "html", "platform",
   "__version__", "LSBLK_CMD", "FS_CANDIDATES", "INSTALL_LOG",
   "write_install_log", "get_compatible_font", "get_system_info",
   "check_and_install_dependencies", "detect_filesystems",
   "get_block_devices", "device_display", "unmount_children",
   "probe_partition_table", "create_single_partition",
   "build_mkfs_command", "run_format", "write_iso_to_device",
   "mount_first_partition", "unmount_mountpoint", "mount_and_list",
   "compute_iso_sha256", "fetch_online_sha256", "detect_windows_iso",
   "write_windows_iso_to_device", "find_checksum_file", "App"]

/-- probe_partition_table, over the environment (partprobe available,
blockdev available).  Every branch returns True: the partition
collecting statements that follow the final return (source lines
314 to 328) are unreachable. -/
def probe_partition_table (hasPartprobe hasBlockdev : Bool) : Bool :=
  if hasPartprobe then true
  else if hasBlockdev then true
  else true

/-- The unreachable statements after the final return of
probe_partition_table (source lines 315 to 328): collect the names of
every node of type "part", in preorder. -/
def collect_parts : List LsblkNode → List String
  | [] => []
  | LsblkNode.mk n t _ cs :: rest =>
      (if t = "part" then [n] else []) ++ collect_parts cs ++ collect_parts rest
termination_by ns => sizeOf ns

/-- The intended find_first_partition, read off the unreachable
statements: the head of the collected partition names, or none. -/
def find_first_partition_deadcode (nodes : List LsblkNode) : Option String :=
  (collect_parts nodes).head?

/-- Preorder listing of an lsblk tree (each node before its children),
used to state which partition is the first one. -/
def preorder : List LsblkNode → List LsblkNode
  | [] => []
  | LsblkNode.mk n t mp cs :: rest =>
      LsblkNode.mk n t mp cs :: (preorder cs ++ preorder rest)
termination_by ns => sizeOf ns

theorem walk_typ (ns : List LsblkNode) : ∀ d ∈ walk ns, d.typ = "disk" := by
  induction ns using walk.induct with
  | case1 => intro d hd; simp [walk] at hd
  | case2 n t mp cs rest ih1 ih2 =>
      intro d hd
      simp only [walk, List.mem_append] at hd
      rcases hd with (hd | hd) | hd
      · by_cases ht : t = "disk"
        · simp [ht] at hd
          subst hd
          simp [LsblkNode.typ, ht]
        · simp [ht] at hd
      · exact ih1 d hd
      · exact ih2 d hd

theorem collect_parts_eq (ns : List LsblkNode) :
    collect_parts ns =
      ((preorder ns).filter (fun d => d.typ == "part")).map LsblkNode.name := by
  induction ns using collect_parts.induct with
  | case1 => simp [collect_parts, preorder]
  | case2 n t mp cs rest ih1 ih2 =>
      by_cases ht : t = "part" <;>
        simp [collect_parts, preorder, List.filter_cons, LsblkNode.typ, LsblkNode.name,
              ht, ih1, ih2]

/-!
SHA-256, the cryptographic hash primitive that hashlib.sha256 provides
to compute_iso_sha256.  Words are Nat reduced mod 2 ^ 32.
-/

def w32 (x : Nat) : Nat := x % 4294967296

def rotr (n x : Nat) : Nat := w32 ((x >>> n) ||| (x <<< (32 - n)))

def bigS0 (x : Nat) : Nat := rotr 2 x ^^^ rotr 13 x ^^^ rotr 22 x
def bigS1 (x : Nat) : Nat := rotr 6 x ^^^ rotr 11 x ^^^ rotr 25 x
def smallS0 (x : Nat) : Nat := rotr 7 x ^^^ rotr 18 x ^^^ (x >>> 3)
def smallS1 (x : Nat) : Nat := rotr 17 x ^^^ rotr 19 x ^^^ (x >>> 10)

def ch (e f g : Nat) : Nat := (e &&& f) ^^^ ((e ^^^ 4294967295) &&& g)
def maj (a b c : Nat) : Nat := (a &&& b) ^^^ (a &&& c) ^^^ (b &&& c)

/-- The 64 SHA-256 round constants, written in decimal. -/
def K : List Nat :=
  [1116352408, 1899447441, 3049323471, 3921009573, 961987163, 1508970993,
   2453635748, 2870763221, 3624381080, 310598401, 607225278, 1426881987,
   1925078388, 2162078206, 2614888103, 3248222580, 3835390401, 4022224774,
   264347078, 604807628, 770255983, 1249150122, 1555081692, 1996064986,
   2554220882, 2821834349, 2952996808, 3210313671, 3336571891, 3584528711,
   113926993, 338241895, 666307205, 773529912, 1294757372, 1396182291,
   1695183700, 1986661051, 2177026350, 2456956037, 2730485921, 2820302411,
   3259730800, 3345764771, 3516065817, 3600352804, 4094571909, 275423344,
   430227734, 506948616, 659060556, 883997877, 958139571, 1322822218,
   1537002063, 1747873779, 1955562222, 2024104815, 2227730452, 2361852424,
   2428436474, 2756734187, 3204031479, 3329325298]

/-- The SHA-256 initial hash value, written in decimal. -/
def H0 : List Nat :=
  [1779033703, 3144134277, 1013904242, 2773480762,
   1359893119, 2600822924, 528734635, 1541459225]

/-- Append the 0x80 byte, the zero padding and the 64-bit big-endian
message bit length, so that the total length is a multiple of 64. -/
def sha_pad (msg : List Nat) : List Nat :=
  let len := msg.length
  let zeros := (119 - len % 64) % 64
  msg ++ [128] ++ List.replicate zeros 0 ++
    (List.range 8).map (fun i => ((len * 8) >>> (8 * (7 - i))) % 256)

def toBlocksAux (cur : List Nat) : List Nat → List (List Nat)
  | [] => if cur.isEmpty then [] else [cur.reverse]
  | b :: rest =>
      if cur.length = 63 then (b :: cur).reverse :: toBlocksAux [] rest
      else toBlocksAux (b :: cur) rest

/-- Split a padded message into 64-byte blocks. -/
def toBlocks (l : List Nat) : List (List Nat) := toBlocksAux [] l

/-- Combine bytes into 32-bit big-endian words. -/
def toWords : List Nat → List Nat
  | b0 :: b1 :: b2 :: b3 :: rest =>
      (b0 * 16777216 + b1 * 65536 + b2 * 256 + b3) :: toWords rest
  | _ => []

/-- Extend the 16 block words to the 64-entry message schedule. -/
def sched (ws0 : List Nat) : List Nat :=
  (List.range 48).foldl
    (fun ws _ =>
      let n := ws.length
      ws ++ [w32 (ws.getD (n - 16) 0 + smallS0 (ws.getD (n - 15) 0) +
                  ws.getD (n - 7) 0 + smallS1 (ws.getD (n - 2) 0))])
    ws0

/-- The SHA-256 compression function on one 64-byte block. -/
def compress (h : List Nat) (block : List Nat) : List Nat :=
  let ws := sched (toWords block)
  let st := (List.range 64).foldl
    (fun st i =>
      match st with
      | [a, b, c, d, e, f, g, hh] =>
          let t1 := w32 (hh + bigS1 e + ch e f g + K.getD i 0 + ws.getD i 0)
          let t2 := w32 (bigS0 a + maj a b c)
          [w32 (t1 + t2), a, b, c, w32 (d + t1), e, f, g]
      | _ => st)
    h
  List.zipWith (fun x y => w32 (x + y)) h st

def sha256_words (msg : List Nat) : List Nat :=
  (toBlocks (sha_pad msg)).foldl compress H0

/-- Lowercase hexadecimal rendering of one 32-bit word. -/
def hex8 (w : Nat) : String :=
  let ds := Nat.toDigits 16 w
  String.mk (List.replicate (8 - ds.length) '0' ++ ds)

/-- The hexdigest of hashlib: SHA-256 of a byte sequence as 64 lowercase
hex characters. -/
def sha256_hex (msg : List Nat) : String :=
  String.join ((sha256_words msg).map hex8)

/-- The read chunk size of compute_iso_sha256: 4 MiB. -/
def CHUNK : Nat := 4 * 1024 * 1024

/-- The read loop of compute_iso_sha256 on the side of the hash object:
h.update(chunk) absorbs each 4 MiB chunk in turn, so the absorbed bytes
are the accumulator extended chunk by chunk. -/
def sha_acc : List Nat → List Nat → List Nat
  | [], acc => acc
  | b :: rest, acc => sha_acc ((b :: rest).drop CHUNK) (acc ++ (b :: rest).take CHUNK)
termination_by rem _ => rem.length
decreasing_by simp [List.length_drop, CHUNK]; omega

theorem sha_acc_eq (rem acc : List Nat) : sha_acc rem acc = acc ++ rem := by
  induction rem, acc using sha_acc.induct with
  | case1 acc => simp [sha_acc]
  | case2 b rest acc ih =>
      rw [sha_acc, ih, List.append_assoc, List.take_append_drop]

/-- The read loop of compute_iso_sha256 on the side of the progress
callback: after each chunk, when total is truthy, report
min(100, read * 100 / total). -/
def compute_chunk_trace (total : Nat) : List Nat → Nat → List Nat
  | [], _ => []
  | b :: rest, read =>
      let read2 := read + ((b :: rest).take CHUNK).length
      min 100 (read2 * 100 / total) ::
        compute_chunk_trace total ((b :: rest).drop CHUNK) read2
termination_by rem _ => rem.length
decreasing_by simp [List.length_drop, CHUNK]; omega

/-- The environment of one compute_iso_sha256 call: the bytes of the
file, the os.path.getsize result (none when it raised), and whether
the read loop raises after some number of complete chunks. -/
structure ComputeEnv : Type where
  contents : List Nat
  sizeKnown : Option Nat
  failAfterChunks : Option Nat

/-- compute_iso_sha256: returns the hex digest (none when a read
failed) together with the progress percentages reported in order.
Every terminal branch of the source, the success return and the except
branch alike, reports 100 last. -/
def compute_iso_sha256 (e : ComputeEnv) : Option String × List Nat :=
  let processed :=
    match e.failAfterChunks with
    | none => e.contents
    | some j => e.contents.take (j * CHUNK)
  let trace :=
    match e.sizeKnown with
    | some t => if t ≠ 0 then compute_chunk_trace t processed 0 else []
    | none => []
  match e.failAfterChunks with
  | none => (some (sha256_hex (sha_acc e.contents [])), trace ++ [100])
  | some _ => (none, trace ++ [100])

/-!
Partitioning, formatting and the imaging flows.
-/

/-- The result of running a Python function body: a normal return, or
an exception escaping the body, tagged with the exception class name. -/
inductive PyResult (α : Type) : Type where
  | ok : α → PyResult α
  | raised : String → PyResult α
deriving DecidableEq

/-- The environment of one create_single_partition call: whether the
two parted invocations (mklabel, then mkpart primary 0% 100%) exit
with status zero.  run with check=True raises CalledProcessError on a
nonzero status. -/
structure PartEnv : Type where
  mklabelOk : Bool
  mkpartOk : Bool
deriving DecidableEq

/-- create_single_partition: unmounts children, runs parted mklabel
then mkpart (a CalledProcessError from either is caught and turned
into a None return), probes the partition table, and then calls
find_first_partition — a name the module never defines, so reaching
that call raises NameError, which the except clause for
CalledProcessError does not catch. -/
def create_single_partition (e : PartEnv) : PyResult (Option String) :=
  if e.mklabelOk then
    if e.mkpartOk then .raised "NameError"
    else .ok none
  else .ok none

/-- The worker of App.on_format in the repartition branches
(create_and_format and repartition_and_format): true when run_format
is invoked.  A None from create_single_partition aborts after an error
dialog, and an exception is caught by the worker except clause; in
both cases run_format is never reached. -/
def on_format_repartition_invokes_run_format
    (createResult : PyResult (Option String)) : Bool :=
  match createResult with
  | .ok (some _) => true
  | .ok none => false
  | .raised _ => false

/-- Python str.startswith: prefix test on the character sequence. -/
def pyStartswith (s pre : String) : Bool := pre.data.isPrefixOf s.data

def splitWsAux : List Char → List Char → List (List Char)
  | [], cur => [cur.reverse]
  | c :: rest, cur =>
      if c.isWhitespace then cur.reverse :: splitWsAux rest []
      else splitWsAux rest (c :: cur)

/-- Python str.split() with no arguments: split on whitespace,
dropping empty pieces. -/
def pySplitWs (s : String) : List String :=
  ((splitWsAux s.data []).map String.mk).filter (fun p => p ≠ "")

/-- Python str.strip(): drop leading and trailing whitespace. -/
def pyStrip (s : String) : String :=
  String.mk (((s.data.dropWhile Char.isWhitespace).reverse.dropWhile Char.isWhitespace).reverse)

/-- Python str.lower(). -/
def pyLower (s : String) : String := String.mk (s.data.map Char.toLower)

/-- build_mkfs_command, translated branch for branch from the source;
none models the IndexError that fstype_key.split()[0] raises in the
fallback branch when the key has no non-whitespace character. -/
def build_mkfs_command (mkcmd fstype_key devpath label : String) :
    Option (List String) :=
  if pyStartswith fstype_key "ext4" then
    some ((["sudo", mkcmd, "-F"] ++ (if label ≠ "" then ["-L", label] else [])) ++ [devpath])
  else if pyStartswith fstype_key "vfat" then
    some ((["sudo", mkcmd, "-F", "32"] ++ (if label ≠ "" then ["-n", label] else [])) ++ [devpath])
  else if pyStartswith fstype_key "exfat" then
    some ((["sudo", mkcmd] ++ (if label ≠ "" then ["-n", label] else [])) ++ [devpath])
  else if pyStartswith fstype_key "ntfs" then
    some ((["sudo", mkcmd] ++ (if label ≠ "" then ["-L", label] else [])) ++ [devpath])
  else if pyStartswith fstype_key "xfs" then
    some ((["sudo", mkcmd, "-f"] ++ (if label ≠ "" then ["-L", label] else [])) ++ [devpath])
  else if pyStartswith fstype_key "btrfs" then
    some ((["sudo", mkcmd, "-f"] ++ (if label ≠ "" then ["-L", label] else [])) ++ [devpath])
  else
    match (pySplitWs fstype_key).head? with
    | some tok => some ["sudo", "mkfs", "-t", tok, devpath]
    | none => none

/-- The argument-list table of the specification: per-filesystem force
and label flags, the label omitted entirely when blank, and the
generic mkfs -t fallback for unrecognized keys. -/
def labelArgs (flag label : String) : List String :=
  if label ≠ "" then [flag, label] else []

/-- The specification table as a function, to compare with
build_mkfs_command. -/
def mkfs_expected (mkcmd fstype_key devpath label : String) :
    Option (List String) :=
  if pyStartswith fstype_key "ext4" then
    some ((["sudo", mkcmd, "-F"] ++ labelArgs "-L" label) ++ [devpath])
  else if pyStartswith fstype_key "vfat" then
    some ((["sudo", mkcmd, "-F", "32"] ++ labelArgs "-n" label) ++ [devpath])
  else if pyStartswith fstype_key "exfat" then
    some ((["sudo", mkcmd] ++ labelArgs "-n" label) ++ [devpath])
  else if pyStartswith fstype_key "ntfs" then
    some ((["sudo", mkcmd] ++ labelArgs "-L" label) ++ [devpath])
  else if pyStartswith fstype_key "xfs" then
    some ((["sudo", mkcmd, "-f"] ++ labelArgs "-L" label) ++ [devpath])
  else if pyStartswith fstype_key "btrfs" then
    some ((["sudo", mkcmd, "-f"] ++ labelArgs "-L" label) ++ [devpath])
  else
    ((pySplitWs fstype_key).head?).map (fun tok => ["sudo", "mkfs", "-t", tok, devpath])

/-- How a launched mkfs process ends: Popen raising, or the process
exiting with a status code. -/
inductive ProcOutcome : Type where
  | raisedInPopen : ProcOutcome
  | exited : Int → ProcOutcome
deriving DecidableEq

/-- The progress percentages reported by run_format, in order: 10
before unmounting, 60 before launching mkfs, one synthetic bump per
loop iteration while the process runs (capped at 95), then 100 on
every terminal branch (exit code zero, nonzero exit code, and the
except branch alike). -/
def run_format_trace (bumps : Nat) (o : ProcOutcome) : List Nat :=
  ([10, 60] ++ (List.range bumps).map (fun i => min 95 (60 + (i + 1)))) ++
    (match o with
     | .raisedInPopen => [100]
     | .exited c => if c = 0 then [100] else [100])

/-- The environment of one write_iso_to_device call. -/
structure WriteIsoEnv : Type where
  fileExists : Bool
  total : Option Nat
  usePv : Bool
  pvPcts : List Nat
  ddBytes : List Nat
  outcome : ProcOutcome
deriving DecidableEq

/-- The progress percentages reported by write_iso_to_device, in
order: 100 alone when the image file is missing; otherwise 5, then the
percentages parsed from pv stderr (pv available) or computed from the
byte counts in dd stderr (fallback, only when the size is known and
truthy), each clamped to at most 100, then 100 on every terminal
branch (zero exit, nonzero exit, and the except branches alike). -/
def write_iso_trace (e : WriteIsoEnv) : List Nat :=
  if ¬ e.fileExists then [100]
  else
    ([5] ++
      (if e.usePv then e.pvPcts.map (fun p => min 100 p)
       else
         match e.total with
         | some t => if t ≠ 0 then e.ddBytes.map (fun b => min 100 (b * 100 / t)) else []
         | none => [])) ++
      (match e.outcome with
       | .raisedInPopen => [100]
       | .exited c => if c = 0 then [100] else [100])

/-- The environment of one write_windows_iso_to_device call: the
os.path.getsize result (none when it raised) and the status of the
two parted invocations.  No later step appears here: execution never
reaches one (see write_windows_trace). -/
structure WinEnv : Type where
  isoSize : Option Nat
  mklabelOk : Bool
  mkpartOk : Bool
deriving DecidableEq

/-- How a write_windows_iso_to_device call ends. -/
inductive WinResult : Type where
  | returned : WinResult
  | raisedNameError : WinResult
deriving DecidableEq

/-- write_windows_iso_to_device: reports 5 after the size check, 10
before partitioning, 15 between mklabel and mkpart, and 20 after the
partitioning try block; a CalledProcessError from parted is logged and
the function returns.  A run that survives partitioning then calls
find_first_partition, a name the module never defines, and raises
NameError; the formatting, mounting, copying and unmounting steps are
unreachable. -/
def write_windows_trace (e : WinEnv) : List Nat × WinResult :=
  match e.isoSize with
  | none => ([], .returned)
  | some _ =>
      if e.mklabelOk then
        if e.mkpartOk then ([5, 10, 15, 20], .raisedNameError)
        else ([5, 10, 15], .returned)
      else ([5, 10], .returned)

/-- The filesystem choice of write_windows_iso_to_device: exFAT when
the image is strictly larger than 4 GiB, FAT32 otherwise. -/
def windows_use_exfat (iso_size : Nat) : Bool :=
  4 * 1024 * 1024 * 1024 < iso_size

def windows_fs_type (iso_size : Nat) : String :=
  if windows_use_exfat iso_size then "exfat" else "vfat (FAT32)"

/-- Normalization applied by on_write_iso before comparing digests:
strip then lower. -/
def normDigest (s : String) : String := pyLower (pyStrip s)

/-- The environment of the checksum verification of the on_write_iso
worker: the computed digest (none when compute_iso_sha256 failed), the
online digest (none when fetch_online_sha256 found nothing) and the
digest from a sibling checksum file (none when find_checksum_file
found nothing). -/
structure LinuxIsoEnv : Type where
  digest : Option String
  online : Option String
  localRef : Option String
deriving DecidableEq

/-- The verification part of the on_write_iso worker: returns the log
lines of the verification outcome and whether the worker goes on to
call write_iso_to_device. -/
def on_write_iso_flow (e : LinuxIsoEnv) : List String × Bool :=
  match e.digest with
  | none => ([], true)
  | some d =>
      match e.online with
      | some od =>
          if normDigest od ≠ normDigest d then
            (["warning: online checksum does NOT match, proceeding anyway"], true)
          else (["online checksum matches"], true)
      | none =>
          match e.localRef with
          | some ld =>
              if normDigest ld ≠ normDigest d then
                (["warning: local checksum file does NOT match, proceeding anyway"], true)
              else (["local checksum matches"], true)
          | none => (["no checksum file found for verification"], true)

/-- App.set_progress: clamp below 0 to 0, then above 100 to 100,
before updating the progress bar and label. -/
def set_progress (pct : Int) : Int :=
  let p1 := if pct < 0 then 0 else pct
  if p1 > 100 then 100 else p1

/-!
The claim theorems.
-/

theorem last_of_concat_100 (l : List Nat) : (l ++ [100]).getLast? = some 100 := by
  simp [List.getLast?_concat]

/-- C1: the claim says find_first_partition returns the name of the
first child node of type "part", or none, and in particular completes.
On the code it cannot complete: find_first_partition is not among the
module globals, so every call raises NameError.  The body the name was
meant to have sits unreachable inside probe_partition_table, after a
return taken on every branch; that dead code does compute the first
preorder node of type "part", or none. -/
theorem find_first_partition_missing :
    ("find_first_partition" ∉ module_globals) ∧
    (∀ pp bd : Bool, probe_partition_table pp bd = true) ∧
    (∀ ns : List LsblkNode,
        find_first_partition_deadcode ns =
          ((((preorder ns).filter (fun d => d.typ == "part")).map LsblkNode.name).head?)) := by
  refine ⟨by decide, ?_, ?_⟩
  · intro pp bd
    cases pp <;> cases bd <;> rfl
  · intro ns
    simp [find_first_partition_deadcode, collect_parts_eq]

/-- C2: the claim says create_single_partition returns none, without
raising, when the new partition cannot be discovered.  On the code the
discovery call itself raises NameError (find_first_partition is
undefined) whenever both parted commands succeed, and the except
clause only catches CalledProcessError; run_format is indeed never
invoked through the repartition branches of the on_format worker, for
any outcome of create_single_partition. -/
theorem create_single_partition_bug :
    create_single_partition ⟨true, true⟩ = PyResult.raised "NameError" ∧
    (∀ e : PartEnv,
        on_format_repartition_invokes_run_format (create_single_partition e) = false) := by
  refine ⟨rfl, ?_⟩
  intro e
  obtain ⟨ml, mp⟩ := e
  cases ml <;> cases mp <;> rfl

/-- C3: the claim says each failing step of write_windows_iso_to_device
is logged and the remaining steps are skipped.  That holds for the
partitioning step (parted failures return after the log line, with no
rollback), but every run that survives partitioning raises NameError
at the find_first_partition call, so the format, mount, copy and
unmount steps and their documented failure handling are unreachable. -/
theorem write_windows_steps_unreachable :
    (∀ n : Nat,
        (write_windows_trace ⟨some n, true, true⟩).2 = WinResult.raisedNameError) ∧
    write_windows_trace ⟨some 5368709120, false, true⟩ = ([5, 10], WinResult.returned) ∧
    write_windows_trace ⟨some 5368709120, true, false⟩ = ([5, 10, 15], WinResult.returned) ∧
    write_windows_trace ⟨none, true, true⟩ = ([], WinResult.returned) :=
  ⟨fun _ => rfl, rfl, rfl, rfl⟩

/-- C4 counterexample: when parted mklabel fails on a 5 GiB image,
write_windows_iso_to_device returns with 10 as the last progress value
it reported, not 100. -/
theorem windows_progress_counterexample :
    (write_windows_trace ⟨some 5368709120, false, true⟩).1.getLast? ≠ some 100 := by
  decide

/-- C4 amended: run_format, write_iso_to_device and compute_iso_sha256
report 100 last on every execution path, failure paths and nonzero
exit codes included; write_windows_iso_to_device does not — a parted
failure ends its reports at 10 or 15, and a run surviving partitioning
ends at 20 when the undefined find_first_partition lookup raises.  The
enclosing worker then forces the displayed progress to 100 in its
cleanup. -/
theorem progress_ends_at_100_amended :
    (∀ (k : Nat) (o : ProcOutcome), (run_format_trace k o).getLast? = some 100) ∧
    (∀ e : WriteIsoEnv, (write_iso_trace e).getLast? = some 100) ∧
    (∀ e : ComputeEnv, ((compute_iso_sha256 e).2).getLast? = some 100) ∧
    (∀ n : Nat, (write_windows_trace ⟨some n, false, true⟩).1.getLast? = some 10) ∧
    (∀ n : Nat, (write_windows_trace ⟨some n, true, false⟩).1.getLast? = some 15) ∧
    (∀ n : Nat, (write_windows_trace ⟨some n, true, true⟩).1.getLast? = some 20) := by
  refine ⟨?_, ?_, ?_, fun _ => rfl, fun _ => rfl, fun _ => rfl⟩
  · intro k o
    cases o with
    | raisedInPopen => exact last_of_concat_100 _
    | exited c =>
        by_cases hc : c = 0 <;>
          · simp [run_format_trace, hc]
            rw [← List.cons_append]
            exact last_of_concat_100 _
  · intro e
    obtain ⟨fe, total, upv, pcts, bytes, o⟩ := e
    cases fe with
    | false => rfl
    | true =>
        cases o with
        | raisedInPopen =>
            simp [write_iso_trace]
            rw [← List.cons_append]
            exact last_of_concat_100 _
        | exited c =>
            by_cases hc : c = 0 <;>
              · simp [write_iso_trace, hc]
                rw [← List.cons_append]
                exact last_of_concat_100 _
  · intro e
    obtain ⟨c, sz, f⟩ := e
    cases f <;> simp [compute_iso_sha256, last_of_concat_100]

/-- C5: the checksum verification of the on_write_iso worker never
blocks the write: for every enumerated outcome the worker proceeds to
write_iso_to_device, and a mismatch yields one warning log line while
still proceeding. -/
theorem linux_iso_always_writes :
    (∀ e : LinuxIsoEnv, (on_write_iso_flow e).2 = true) ∧
    on_write_iso_flow ⟨some "aa", some "bb", none⟩ =
      (["warning: online checksum does NOT match, proceeding anyway"], true) ∧
    on_write_iso_flow ⟨some "aa", none, some "bb"⟩ =
      (["warning: local checksum file does NOT match, proceeding anyway"], true) ∧
    on_write_iso_flow ⟨some "aa", none, none⟩ =
      (["no checksum file found for verification"], true) ∧
    on_write_iso_flow ⟨none, none, none⟩ = ([], true) := by
  refine ⟨?_, by decide, by decide, by decide, rfl⟩
  intro e
  obtain ⟨d, od, ld⟩ := e
  cases d with
  | none => rfl
  | some d =>
      cases od with
      | some od =>
          by_cases h : normDigest od ≠ normDigest d <;> simp [on_write_iso_flow, h]
      | none =>
          cases ld with
          | some ld =>
              by_cases h : normDigest ld ≠ normDigest d <;> simp [on_write_iso_flow, h]
          | none => rfl

/-- C6 counterexample: the empty key matches none of the six
recognized prefixes, yet the fallback does not return the generic
mkfs -t argument list: fstype_key.split()[0] raises IndexError (the
none of the embedding). -/
theorem build_mkfs_command_empty_key :
    build_mkfs_command "mkfs" "" "/dev/sdb1" "lbl" = none ∧
    build_mkfs_command "mkfs" "" "/dev/sdb1" "lbl" ≠
      some ["sudo", "mkfs", "-t", "", "/dev/sdb1"] := by
  constructor <;> decide

/-- C6 amended: build_mkfs_command agrees with the documented
flag table everywhere (force and label flags per filesystem, the label
omitted entirely when blank, generic mkfs -t on the first token of an
unrecognized key), except that a key with no non-whitespace character
raises IndexError instead of producing the generic command. -/
theorem build_mkfs_command_table :
    (∀ mkcmd fstype_key devpath label : String,
        build_mkfs_command mkcmd fstype_key devpath label =
          mkfs_expected mkcmd fstype_key devpath label) ∧
    (∀ m d : String,
        build_mkfs_command m "ext4" d "" = some ["sudo", m, "-F", d] ∧
        build_mkfs_command m "vfat (FAT32)" d "" = some ["sudo", m, "-F", "32", d] ∧
        build_mkfs_command m "exfat" d "" = some ["sudo", m, d] ∧
        build_mkfs_command m "ntfs" d "" = some ["sudo", m, d] ∧
        build_mkfs_command m "xfs" d "" = some ["sudo", m, "-f", d] ∧
        build_mkfs_command m "btrfs" d "" = some ["sudo", m, "-f", d]) ∧
    (∀ m d : String,
        build_mkfs_command m "ext4" d "DATA" = some ["sudo", m, "-F", "-L", "DATA", d] ∧
        build_mkfs_command m "vfat (FAT32)" d "DATA" =
          some ["sudo", m, "-F", "32", "-n", "DATA", d] ∧
        build_mkfs_command m "exfat" d "DATA" = some ["sudo", m, "-n", "DATA", d] ∧
        build_mkfs_command m "ntfs" d "DATA" = some ["sudo", m, "-L", "DATA", d] ∧
        build_mkfs_command m "xfs" d "DATA" = some ["sudo", m, "-f", "-L", "DATA", d] ∧
        build_mkfs_command m "btrfs" d "DATA" = some ["sudo", m, "-f", "-L", "DATA", d]) ∧
    (∀ m d l : String,
        build_mkfs_command m "minix" d l = some ["sudo", "mkfs", "-t", "minix", d]) := by
  refine ⟨fun mkcmd fstype_key devpath label => ?_,
          fun m d => ⟨rfl, rfl, rfl, rfl, rfl, rfl⟩,
          fun m d => ⟨rfl, rfl, rfl, rfl, rfl, rfl⟩,
          fun m d l => rfl⟩
  unfold build_mkfs_command mkfs_expected labelArgs
  cases h : (pySplitWs fstype_key).head? <;> rfl

set_option maxRecDepth 10000 in
/-- C7: compute_iso_sha256 absorbs the file in 4 MiB chunks and, when
no read fails, returns exactly the SHA-256 hex digest of the whole
contents; on the empty file that digest is the canonical empty-string
SHA-256 value. -/
theorem compute_iso_sha256_digest_correct :
    (∀ (contents : List Nat) (sz : Option Nat),
        (compute_iso_sha256 ⟨contents, sz, none⟩).1 = some (sha256_hex contents)) ∧
    (compute_iso_sha256 ⟨[], some 0, none⟩).1 =
      some "e3b0c44298fc1c149afbf4c8996fb92427ae41e4649b934ca495991b7852b855" := by
  have hmain : ∀ (contents : List Nat) (sz : Option Nat),
      (compute_iso_sha256 ⟨contents, sz, none⟩).1 = some (sha256_hex contents) := by
    intro contents sz
    simp [compute_iso_sha256, sha_acc_eq]
  refine ⟨hmain, ?_⟩
  rw [hmain]
  have h : sha256_hex [] =
      "e3b0c44298fc1c149afbf4c8996fb92427ae41e4649b934ca495991b7852b855" := by decide
  rw [h]

/-- C8: every record returned by get_block_devices has type "disk";
no node of type "part" (or any non-disk type) appears, whatever the
lsblk tree was. -/
theorem get_block_devices_all_disk (p : Option LsblkReport) :
    ((get_block_devices p).1.all (fun d => d.typ == "disk")) = true ∧
    ((get_block_devices p).1.any (fun d => d.typ == "part")) = false := by
  have h : ∀ d ∈ (get_block_devices p).1, d.typ = "disk" := by
    cases p with
    | none => intro d hd; simp [get_block_devices] at hd
    | some data => intro d hd; exact walk_typ data.blockdevices d hd
  constructor
  · rw [List.all_eq_true]
    intro d hd
    exact beq_iff_eq.mpr (h d hd)
  · rw [List.any_eq_false]
    intro d hd
    rw [h d hd]
    decide

/-- C9: the Windows-style install path selects the target filesystem
solely by image size with a strict 4 GiB threshold: exFAT strictly
above 4 GiB, FAT32 at or below it; in particular a 5 GiB image selects
exFAT. -/
theorem windows_fs_selection_threshold :
    (∀ s : Nat, windows_fs_type s =
        (if 4 * 1024 * 1024 * 1024 < s then "exfat" else "vfat (FAT32)")) ∧
    windows_fs_type (5 * 1024 * 1024 * 1024) = "exfat" ∧
    windows_fs_type (4 * 1024 * 1024 * 1024 + 1) = "exfat" ∧
    windows_fs_type (4 * 1024 * 1024 * 1024) = "vfat (FAT32)" := by
  refine ⟨?_, by decide, by decide, by decide⟩
  intro s
  by_cases h : 4 * 1024 * 1024 * 1024 < s <;>
    simp [windows_fs_type, windows_use_exfat, h]

/-- C10: App.set_progress clamps every integer into [0, 100]: values
below 0 become 0, values above 100 become 100, and in-range values
pass through, so the displayed progress is always within [0, 100]. -/
theorem set_progress_clamps (pct : Int) :
    set_progress pct = max 0 (min 100 pct) ∧
    0 ≤ set_progress pct ∧ set_progress pct ≤ 100 := by
  unfold set_progress
  dsimp only
  split <;> split <;> refine ⟨?_, ?_, ?_⟩ <;> omega

end FormatUsb
